import Mathlib

/-!
Verification development for the RealTimeChatBackend repository.

The room/presence coordination engine is embedded from the chat service
variant that owns the connection registry and the meeting lifecycle
trigger (src/unnamed/part_001, first `chatService` listing): the
`connectedUsers` map keyed by socket id, the transport-level broadcast
rooms maintained by `socket.join` / `socket.leave`, and the five event
handlers `join-meeting`, `send-message`, `leave-meeting`, `end-meeting`
and `disconnect`.  The HTTP meeting routes (src/unnamed/part_000) and the
JWT middleware (src/api/middlewares/auth.ts) are embedded as status-code
functions.  The Firestore-backed Meeting Store is modelled as a list of
meeting records, and its asynchronous `updateStatus` calls as explicit
request values so that their number and timing can be reasoned about.
-/

namespace RTChat

/-- Meeting status enum, `'active' | 'ended'` in src/api/models/Meeting.ts. -/
inductive MeetingStatus where
  | active
  | ended
deriving DecidableEq

/-- Meeting record, src/api/models/Meeting.ts (`createdAt` abstracted to a Nat tick). -/
structure Meeting where
  id : String
  creatorId : String
  status : MeetingStatus
  createdAt : Nat
deriving DecidableEq

/-- Value stored per socket in the `connectedUsers` map of the chat service. -/
structure Participant where
  userId : String
  name : String
  meetingId : String
deriving DecidableEq

/-- The `connectedUsers` JS `Map` as an association list in insertion order. -/
abbrev ConnMap := List (String × Participant)

/-- `Map.get(k)`: first (and, for a real `Map`, only) binding of key `k`. -/
def mapGet : ConnMap → String → Option Participant
  | [], _ => none
  | (k1, v1) :: rest, k => if k1 == k then some v1 else mapGet rest k

/-- `Map.set(k, v)`: replace the binding of `k` in place, or append a new one. -/
def mapSet : ConnMap → String → Participant → ConnMap
  | [], k, v => [(k, v)]
  | (k1, v1) :: rest, k, v =>
      if k1 == k then (k, v) :: rest else (k1, v1) :: mapSet rest k v

/-- `Map.delete(k)`. -/
def mapDelete : ConnMap → String → ConnMap
  | [], _ => []
  | (k1, v1) :: rest, k =>
      if k1 == k then mapDelete rest k else (k1, v1) :: mapDelete rest k

/-- `Array.from(map.values())`. -/
def mapValues (cu : ConnMap) : List Participant :=
  cu.map Prod.snd

/-- Transport-level broadcast groups of the Socket.IO adapter:
room name (the meeting id) to the socket ids currently in it. -/
abbrev Rooms := List (String × List String)

/-- `io.sockets.adapter.rooms.get(mid)`, an absent room read as no members. -/
def roomMembers (rs : Rooms) (mid : String) : List String :=
  match rs.find? (fun r => r.1 == mid) with
  | some r => r.2
  | none => []

/-- `socket.join(mid)`: add the socket to the room, creating it if needed
(rooms are sets, joining twice is a no-op). -/
def roomJoin : Rooms → String → String → Rooms
  | [], mid, sid => [(mid, [sid])]
  | (m1, ms) :: rest, mid, sid =>
      if m1 == mid then
        (m1, if ms.contains sid then ms else ms ++ [sid]) :: rest
      else
        (m1, ms) :: roomJoin rest mid sid

/-- `socket.leave(mid)`: remove the socket from that one room. -/
def roomLeave (rs : Rooms) (mid sid : String) : Rooms :=
  rs.map (fun r => if r.1 == mid then (r.1, r.2.filter (fun x => x != sid)) else r)

/-- Transport-level cleanup on connection loss: the socket leaves every room
before the `disconnect` handler runs. -/
def roomsDropSocket (rs : Rooms) (sid : String) : Rooms :=
  rs.map (fun r => (r.1, r.2.filter (fun x => x != sid)))

/-- Event payloads that the handlers emit. -/
inductive Payload where
  | text (s : String)
  | userRef (userId name : String)
  | userIdOnly (userId : String)
  | plist (ps : List (String × String))
  | message (author body : String) (timestamp : Nat)
deriving DecidableEq

/-- A single `emit` performed by a handler: to one socket, to a whole room
(`io.to(mid).emit`), or to a room minus the sender (`socket.to(mid).emit`). -/
inductive Emission where
  | toSocket (sid ev : String) (p : Payload)
  | toRoom (mid ev : String) (p : Payload)
  | toRoomExcept (mid sender ev : String) (p : Payload)
deriving DecidableEq

/-- An asynchronous request issued to the Meeting Store. -/
inductive StoreRequest where
  | updateStatus (mid : String) (st : MeetingStatus)
deriving DecidableEq

/-- Whole chat-service state: the `connectedUsers` registry, the adapter's
rooms, and the contents of the external Meeting Store. -/
structure ChatState where
  connectedUsers : ConnMap
  rooms : Rooms
  store : List Meeting
deriving DecidableEq

/-- Result of running one handler: the new state, the emissions performed,
and the store requests issued (in order). -/
structure HandlerResult where
  state : ChatState
  emissions : List Emission
  requests : List StoreRequest
deriving DecidableEq

/-- `meetingDAO.getMeetingById`, a lookup in the store contents. -/
def getMeetingById (store : List Meeting) (id : String) : Option Meeting :=
  store.find? (fun m => m.id == id)

/-- The `alreadyJoined` scan of the join handler:
`Array.from(connectedUsers.values()).some(u => u.userId === userId && u.meetingId === meetingId)`. -/
def alreadyJoined (cu : ConnMap) (userId meetingId : String) : Bool :=
  (mapValues cu).any (fun u => u.userId == userId && u.meetingId == meetingId)

/-- The participant-list computation of the join handler:
registry values filtered by `meetingId`, projected to `(userId, name)`. -/
def participantsOf (cu : ConnMap) (meetingId : String) : List (String × String) :=
  ((mapValues cu).filter (fun u => u.meetingId == meetingId)).map
    (fun u => (u.userId, u.name))

/-- The `join-meeting` handler (src/unnamed/part_001 lines 27 to 56):
validate the meeting, `socket.join`, register and broadcast `user-joined`
unless the user is already in the registry for this meeting, then send
the participants list and the `joined` ack to the caller. -/
def joinMeeting (s : ChatState) (sid meetingId userId name : String) : HandlerResult :=
  match getMeetingById s.store meetingId with
  | none =>
      ⟨s, [.toSocket sid "error" (.text "Reunion no encontrada o inactiva")], []⟩
  | some meeting =>
      if meeting.status != MeetingStatus.active then
        ⟨s, [.toSocket sid "error" (.text "Reunion no encontrada o inactiva")], []⟩
      else
        let rooms1 := roomJoin s.rooms meetingId sid
        let aj := alreadyJoined s.connectedUsers userId meetingId
        let cu1 :=
          if aj then s.connectedUsers
          else mapSet s.connectedUsers sid ⟨userId, name, meetingId⟩
        let joinEmits : List Emission :=
          if aj then []
          else [.toRoom meetingId "user-joined" (.userRef userId name)]
        ⟨⟨cu1, rooms1, s.store⟩,
         joinEmits ++
           [.toSocket sid "participants-list" (.plist (participantsOf cu1 meetingId)),
            .toSocket sid "joined" (.text "Unido a reunion")],
         []⟩

/-- The `send-message` handler (src/unnamed/part_001 lines 59 to 68):
relay to the room minus the sender, stamping the server-side clock `now`
(`timestamp: new Date()`); no state change, no store request. -/
def sendMessage (s : ChatState) (sid meetingId body author : String) (now : Nat) :
    HandlerResult :=
  ⟨s, [.toRoomExcept meetingId sid "receive-message" (.message author body now)], []⟩

/-- The `leave-meeting` handler (src/unnamed/part_001 lines 71 to 74):
only `socket.leave(meetingId)`; the registry is untouched and nothing is
emitted. -/
def leaveMeeting (s : ChatState) (sid meetingId : String) : HandlerResult :=
  ⟨⟨s.connectedUsers, roomLeave s.rooms meetingId sid, s.store⟩, [], []⟩

/-- The `end-meeting` handler (src/unnamed/part_001 lines 77 to 81):
broadcast `meeting-ended` to the room; no check of the caller, no registry
change, no store request. -/
def endMeeting (s : ChatState) (sid meetingId : String) : HandlerResult :=
  ⟨s, [.toRoom meetingId "meeting-ended" (.text "La reunion ha terminado.")], []⟩

/-- The `disconnect` handler (src/unnamed/part_001 lines 84 to 105).  The
socket has already left all transport rooms when the handler runs.  If the
socket is registered: broadcast `user-left`, delete the registry entry, and
if the adapter's room for its meeting is now absent or empty, issue one
`updateStatus(meetingId, ended)` request.  Otherwise do nothing. -/
def onDisconnect (s : ChatState) (sid : String) : HandlerResult :=
  let rooms1 := roomsDropSocket s.rooms sid
  match mapGet s.connectedUsers sid with
  | some userData =>
      let cu1 := mapDelete s.connectedUsers sid
      let reqs : List StoreRequest :=
        if (roomMembers rooms1 userData.meetingId).isEmpty then
          [.updateStatus userData.meetingId .ended]
        else []
      ⟨⟨cu1, rooms1, s.store⟩,
       [.toRoom userData.meetingId "user-left" (.userIdOnly userData.userId)],
       reqs⟩
  | none => ⟨⟨s.connectedUsers, rooms1, s.store⟩, [], []⟩

/-- One inbound connection event, as dispatched by the socket server. -/
inductive Event where
  | join (sid meetingId userId name : String)
  | message (sid meetingId body author : String) (now : Nat)
  | leave (sid meetingId : String)
  | endMeet (sid meetingId : String)
  | disconnect (sid : String)
deriving DecidableEq

/-- Serialized dispatch of one event to its handler (the runtime serializes
handler execution against the shared registry). -/
def stepEvent (s : ChatState) : Event → HandlerResult
  | .join sid mid uid name => joinMeeting s sid mid uid name
  | .message sid mid body author now => sendMessage s sid mid body author now
  | .leave sid mid => leaveMeeting s sid mid
  | .endMeet sid mid => endMeeting s sid mid
  | .disconnect sid => onDisconnect s sid

/-- Run a whole trace of events, accumulating emissions and store requests. -/
def runTrace (s : ChatState) : List Event → ChatState × List Emission × List StoreRequest
  | [] => (s, [], [])
  | e :: es =>
      let r := stepEvent s e
      let rest := runTrace r.state es
      (rest.1, r.emissions ++ rest.2.1, r.requests ++ rest.2.2)

/-- Whether one emission reaches connection `c`, given the adapter rooms in
force at emission time: `io.to(mid)` reaches the room's members,
`socket.to(mid)` the members minus the sender. -/
def deliveredTo (rs : Rooms) (e : Emission) (c : String) : Bool :=
  match e with
  | .toSocket sid _ _ => c == sid
  | .toRoom mid _ _ => (roomMembers rs mid).contains c
  | .toRoomExcept mid sender _ _ => c != sender && (roomMembers rs mid).contains c

/-- Boolean form of the join handler's validation: the meeting exists and is
active. -/
def meetingActiveB (store : List Meeting) (id : String) : Bool :=
  match getMeetingById store id with
  | some m => m.status == MeetingStatus.active
  | none => false

/-- Resolution of one fire-and-forget store request
(`updateMeetingStatus(...).catch(err => console.error(...))`): it performs no
client emission, issues no further request, and on failure only produces a
log line. -/
def resolveUpdate (req : StoreRequest) (fails : Bool) :
    List Emission × List StoreRequest × List String :=
  if fails then ([], [], ["Error terminando reunion"]) else ([], [], [])

/-- The disconnect handler together with the later resolution of the store
requests it issued: final state, client emissions, total store requests, and
log lines, with `fails` saying whether the asynchronous update failed. -/
def disconnectWithOutcome (s : ChatState) (sid : String) (fails : Bool) :
    ChatState × List Emission × List StoreRequest × List String :=
  let r := onDisconnect s sid
  let resolved := r.requests.map (fun q => resolveUpdate q fails)
  (r.state,
   r.emissions ++ (resolved.map (fun x => x.1)).flatten,
   r.requests ++ (resolved.map (fun x => x.2.1)).flatten,
   (resolved.map (fun x => x.2.2)).flatten)

/-- The store requests one event actually triggers, stated as the amended
lifecycle rule: only a `disconnect` of a registered connection whose
meeting's transport-level room is empty once the socket has left it issues a
request, and it issues exactly one `updateStatus(meetingId, ended)`. -/
def lifecycleTrigger (s : ChatState) : Event → List StoreRequest
  | .disconnect sid =>
      match mapGet s.connectedUsers sid with
      | some p =>
          if (roomMembers (roomsDropSocket s.rooms sid) p.meetingId).isEmpty then
            [.updateStatus p.meetingId .ended]
          else []
      | none => []
  | _ => []

/-- The amended lifecycle rule extended to a whole trace. -/
def expectedTraceRequests (s : ChatState) : List Event → List StoreRequest
  | [] => []
  | e :: es => lifecycleTrigger s e ++ expectedTraceRequests (stepEvent s e).state es

/-! HTTP surface: the JWT middleware (src/api/middlewares/auth.ts) and the
three meeting routes (src/unnamed/part_000), embedded as the response status
they produce. -/

/-- Outcome of `jwt.verify` on the request's Authorization header: header or
token absent, token invalid, or a verified payload whose `userId` claim may
be absent. -/
inductive TokenState where
  | missing
  | invalid
  | valid (userId : Option String)
deriving DecidableEq

/-- Outcome of the `authenticateToken` middleware: halt with a status, or
proceed with the decoded payload's `userId`. -/
inductive AuthOutcome where
  | reject (status : Nat)
  | proceed (userId : Option String)
deriving DecidableEq

/-- `authenticateToken` (src/api/middlewares/auth.ts lines 17 to 35):
no token yields 401, an invalid token yields 403, a valid one attaches the
payload and calls `next()`. -/
def authenticateToken : TokenState → AuthOutcome
  | .missing => .reject 401
  | .invalid => .reject 403
  | .valid u => .proceed u

/-- `POST /meetings` (src/unnamed/part_000 lines 27 to 38): after the
middleware, a payload without `userId` yields 401; a store failure yields
500; otherwise 201. -/
def createMeetingStatus (t : TokenState) (storeFails : Bool) : Nat :=
  match authenticateToken t with
  | .reject st => st
  | .proceed none => 401
  | .proceed (some _) => if storeFails then 500 else 201

/-- `GET /meetings/:id` (src/unnamed/part_000 lines 52 to 61): store failure
yields 500, absent meeting 404, otherwise 200. -/
def getMeetingStatus (t : TokenState) (storeFails found : Bool) : Nat :=
  match authenticateToken t with
  | .reject st => st
  | .proceed _ => if storeFails then 500 else if found then 200 else 404

/-- `PUT /meetings/:id/end` (src/unnamed/part_000 lines 74 to 82): store
failure yields 500, otherwise 200. -/
def endMeetingStatus (t : TokenState) (storeFails : Bool) : Nat :=
  match authenticateToken t with
  | .reject st => st
  | .proceed _ => if storeFails then 500 else 200

/-! Concrete fixtures used by counterexamples and witnesses. -/

/-- An active meeting `m1`. -/
def meetingM : Meeting := ⟨"m1", "creator", .active, 0⟩

/-- Start state: empty registry and rooms, the store holding only `m1`. -/
def s0 : ChatState := ⟨[], [], [meetingM]⟩

/-- A state with one registered connection `sock1` for user `u1` in `m1`,
present in the transport room. -/
def sOne : ChatState :=
  ⟨[("sock1", ⟨"u1", "Alice", "m1"⟩)], [("m1", ["sock1"])], [meetingM]⟩

/-- The reconnection trace: `sock1` joins `m1` as `u1`, `sock2` joins `m1`
as the same user (classified as a reconnection, so not registered), then
`sock1` disconnects. -/
def reconnectTrace : List Event :=
  [.join "sock1" "m1" "u1" "Alice",
   .join "sock2" "m1" "u1" "Alice",
   .disconnect "sock1"]

/-- Number of registry entries carrying a given `(userId, meetingId)` pair. -/
def countEntries (cu : ConnMap) (uid mid : String) : Nat :=
  ((mapValues cu).filter (fun u => u.userId == uid && u.meetingId == mid)).length

/-- Number of `user-joined` broadcasts for a given user and room in a list of
emissions. -/
def countUserJoined (es : List Emission) (mid uid : String) : Nat :=
  (es.filter (fun e =>
    match e with
    | .toRoom m ev (.userRef u _) => m == mid && ev == "user-joined" && u == uid
    | _ => false)).length

/-! Helper lemmas about the registry map and the join handler. -/

lemma meetingActiveB_iff (store : List Meeting) (id : String) :
    meetingActiveB store id = true ↔
      ∃ mt, getMeetingById store id = some mt ∧ mt.status = MeetingStatus.active := by
  unfold meetingActiveB
  cases h : getMeetingById store id with
  | none => simp
  | some mt => simp [beq_iff_eq]

lemma mapGet_mapSet_self (cu : ConnMap) (k : String) (v : Participant) :
    mapGet (mapSet cu k v) k = some v := by
  induction cu with
  | nil => simp [mapSet, mapGet]
  | cons hd tl ih =>
      obtain ⟨k1, v1⟩ := hd
      by_cases h : (k1 == k) = true
      · simp [mapSet, h, mapGet]
      · simp only [mapSet, h]
        simp only [Bool.false_eq_true, if_false, mapGet, h, ih]

lemma mem_mapValues_of_mapGet (cu : ConnMap) (k : String) (v : Participant)
    (h : mapGet cu k = some v) : v ∈ mapValues cu := by
  induction cu with
  | nil => simp [mapGet] at h
  | cons hd tl ih =>
      obtain ⟨k1, v1⟩ := hd
      by_cases hk : (k1 == k) = true
      · simp [mapGet, hk] at h
        simp [mapValues, h]
      · simp only [mapGet, hk, Bool.false_eq_true, if_false] at h
        simp [mapValues] at ih ⊢
        exact Or.inr (ih h)

lemma alreadyJoined_iff (cu : ConnMap) (uid mid : String) :
    alreadyJoined cu uid mid = true ↔
      ∃ u ∈ mapValues cu, u.userId = uid ∧ u.meetingId = mid := by
  unfold alreadyJoined
  simp [List.any_eq_true, Bool.and_eq_true, beq_iff_eq]

lemma alreadyJoined_mapSet_self (cu : ConnMap) (k uid name mid : String) :
    alreadyJoined (mapSet cu k ⟨uid, name, mid⟩) uid mid = true := by
  rw [alreadyJoined_iff]
  exact ⟨⟨uid, name, mid⟩,
    mem_mapValues_of_mapGet _ k _ (mapGet_mapSet_self cu k _), rfl, rfl⟩

lemma countEntries_eq_zero (cu : ConnMap) (uid mid : String)
    (h : alreadyJoined cu uid mid = false) : countEntries cu uid mid = 0 := by
  unfold alreadyJoined at h
  unfold countEntries
  rw [List.length_eq_zero, List.filter_eq_nil]
  intro u hu
  have := List.any_eq_false.mp h u hu
  simpa using this

lemma countEntries_mapSet_le (cu : ConnMap) (k : String) (v : Participant)
    (uid mid : String) :
    countEntries (mapSet cu k v) uid mid ≤ countEntries cu uid mid + 1 := by
  induction cu with
  | nil =>
      simp only [mapSet, countEntries, mapValues, List.map_cons, List.map_nil]
      cases h : (v.userId == uid && v.meetingId == mid) <;> simp [List.filter, h]
  | cons hd tl ih =>
      obtain ⟨k1, v1⟩ := hd
      by_cases hk : (k1 == k) = true
      · simp only [mapSet, hk, if_true]
        simp only [countEntries, mapValues, List.map_cons, List.filter] at *
        cases h : (v.userId == uid && v.meetingId == mid) <;>
          cases h1 : (v1.userId == uid && v1.meetingId == mid) <;>
            simp [h, h1] <;> omega
      · simp only [mapSet, hk, Bool.false_eq_true, if_false]
        simp only [countEntries, mapValues, List.map_cons, List.filter] at *
        cases h1 : (v1.userId == uid && v1.meetingId == mid) <;> simp [h1] <;> omega

/-- The join handler on an active meeting when the user is not yet in the
registry: register, broadcast `user-joined`, send the list and the ack. -/
lemma joinMeeting_active_new (s : ChatState) (sid mid uid name : String)
    (mt : Meeting) (hmt : getMeetingById s.store mid = some mt)
    (hst : mt.status = MeetingStatus.active)
    (haj : alreadyJoined s.connectedUsers uid mid = false) :
    joinMeeting s sid mid uid name =
      ⟨⟨mapSet s.connectedUsers sid ⟨uid, name, mid⟩, roomJoin s.rooms mid sid, s.store⟩,
       [.toRoom mid "user-joined" (.userRef uid name),
        .toSocket sid "participants-list"
          (.plist (participantsOf (mapSet s.connectedUsers sid ⟨uid, name, mid⟩) mid)),
        .toSocket sid "joined" (.text "Unido a reunion")],
       []⟩ := by
  unfold joinMeeting
  rw [hmt]
  simp [hst, haj]

/-- The join handler on an active meeting when the user already has a
registry entry for this meeting: no registration, no broadcast. -/
lemma joinMeeting_active_dup (s : ChatState) (sid mid uid name : String)
    (mt : Meeting) (hmt : getMeetingById s.store mid = some mt)
    (hst : mt.status = MeetingStatus.active)
    (haj : alreadyJoined s.connectedUsers uid mid = true) :
    joinMeeting s sid mid uid name =
      ⟨⟨s.connectedUsers, roomJoin s.rooms mid sid, s.store⟩,
       [.toSocket sid "participants-list" (.plist (participantsOf s.connectedUsers mid)),
        .toSocket sid "joined" (.text "Unido a reunion")],
       []⟩ := by
  unfold joinMeeting
  rw [hmt]
  simp [hst, haj]

lemma userId_mem_participantsOf (cu : ConnMap) (mid : String) (u : Participant)
    (hu : u ∈ mapValues cu) (hm : u.meetingId = mid) :
    u.userId ∈ (participantsOf cu mid).map Prod.fst := by
  unfold participantsOf
  simp only [List.map_map, List.mem_map, List.mem_filter, Function.comp]
  exact ⟨u, ⟨hu, by simp [hm]⟩, rfl⟩

lemma stepEvent_requests (s : ChatState) (e : Event) :
    (stepEvent s e).requests = lifecycleTrigger s e := by
  cases e with
  | join sid mid uid name =>
      simp only [stepEvent, lifecycleTrigger]
      unfold joinMeeting
      cases getMeetingById s.store mid with
      | none => rfl
      | some mt =>
          dsimp only
          split <;> rfl
  | message sid mid body author now => rfl
  | leave sid mid => rfl
  | endMeet sid mid => rfl
  | disconnect sid =>
      simp only [stepEvent, lifecycleTrigger]
      unfold onDisconnect
      cases mapGet s.connectedUsers sid with
      | none => rfl
      | some p => rfl

/-! Claim theorems. -/

/-- C1 counterexample: in `reconnectTrace` the disconnect of `sock1` is a
removal that empties the participant set of meeting `m1` (nonempty after the
first two events), yet no status-update request at all is issued, because
the reconnection socket `sock2` still sits in the transport-level room that
the trigger actually inspects. -/
theorem emptied_registry_without_request :
    participantsOf (runTrace s0 (reconnectTrace.take 2)).1.connectedUsers "m1" ≠ [] ∧
    participantsOf (runTrace s0 reconnectTrace).1.connectedUsers "m1" = [] ∧
    (runTrace s0 reconnectTrace).2.2 = [] := by decide

/-- C1 amended: over any event trace, the status-update requests issued are
exactly those of the amended lifecycle rule `expectedTraceRequests`: one
`updateStatus(meetingId, ended)` per disconnect of a registered connection
whose meeting's transport-level room is empty once the socket has left it,
and none from any other event — in particular none from explicit leaves and
none triggered by registry emptiness alone. -/
theorem lifecycle_requests_characterization (s : ChatState) (es : List Event) :
    (runTrace s es).2.2 = expectedTraceRequests s es := by
  induction es generalizing s with
  | nil => rfl
  | cons e es ih =>
      simp only [runTrace, expectedTraceRequests]
      rw [stepEvent_requests, ih]

/-- C3: a join whose target meeting is absent from the store or not active
produces exactly one `error` emission to the caller and nothing else: the
registry, the transport rooms and the store contents are untouched, no
broadcast happens, the socket is not added to the room, and no store request
is issued. -/
theorem joinMeeting_rejected (s : ChatState) (sid mid uid name : String)
    (h : meetingActiveB s.store mid = false) :
    joinMeeting s sid mid uid name =
      ⟨s, [.toSocket sid "error" (.text "Reunion no encontrada o inactiva")], []⟩ := by
  unfold meetingActiveB at h
  unfold joinMeeting
  cases hm : getMeetingById s.store mid with
  | none => rfl
  | some mt =>
      rw [hm] at h
      have h1 : mt.status ≠ MeetingStatus.active := by simpa using h
      simp [h1]

/-- Witness for `joinMeeting_rejected` at the absent meeting id `m2`. -/
theorem joinMeeting_rejected_witness :
    meetingActiveB s0.store "m2" = false ∧
    joinMeeting s0 "sock9" "m2" "u9" "Nina" =
      ⟨s0, [.toSocket "sock9" "error" (.text "Reunion no encontrada o inactiva")], []⟩ :=
  ⟨by decide, joinMeeting_rejected s0 "sock9" "m2" "u9" "Nina" (by decide)⟩

/-- C5 counterexample: for the joined connection `sock1` of `sOne`, the
explicit leave and the abrupt disconnect are observably different: leave
emits nothing and keeps the registry entry, disconnect emits `user-left` and
deletes it. -/
theorem leave_disconnect_not_symmetric :
    ¬ ((leaveMeeting sOne "sock1" "m1").emissions =
         (onDisconnect sOne "sock1").emissions ∧
       (leaveMeeting sOne "sock1" "m1").state.connectedUsers =
         (onDisconnect sOne "sock1").state.connectedUsers) := by decide

/-- C5 amended: explicit leave only detaches the connection from the
transport-level broadcast group — it emits no presence broadcast, issues no
store request and leaves the registry untouched; only the abrupt disconnect
of a registered connection emits the `user-left` broadcast with that
connection's userId and removes its registry entry. -/
theorem leave_vs_disconnect :
    (∀ (s : ChatState) (sid mid : String),
       (leaveMeeting s sid mid).emissions = [] ∧
       (leaveMeeting s sid mid).requests = [] ∧
       (leaveMeeting s sid mid).state.connectedUsers = s.connectedUsers ∧
       (leaveMeeting s sid mid).state.rooms = roomLeave s.rooms mid sid) ∧
    (∀ (s : ChatState) (sid : String) (p : Participant),
       mapGet s.connectedUsers sid = some p →
       (onDisconnect s sid).emissions =
         [.toRoom p.meetingId "user-left" (.userIdOnly p.userId)] ∧
       (onDisconnect s sid).state.connectedUsers = mapDelete s.connectedUsers sid) := by
  refine ⟨fun s sid mid => ⟨rfl, rfl, rfl, rfl⟩, fun s sid p h => ?_⟩
  unfold onDisconnect
  rw [h]
  exact ⟨rfl, rfl⟩

/-- Witness for `leave_vs_disconnect` on the concrete joined state `sOne`. -/
theorem leave_vs_disconnect_witness :
    mapGet sOne.connectedUsers "sock1" = some ⟨"u1", "Alice", "m1"⟩ ∧
    (onDisconnect sOne "sock1").emissions =
      [.toRoom "m1" "user-left" (.userIdOnly "u1")] :=
  ⟨by decide,
   (leave_vs_disconnect.2 sOne "sock1" ⟨"u1", "Alice", "m1"⟩ (by decide)).1⟩

/-- C6: `send-message` stamps the relayed message with the server-side clock
`now`, changes no state and issues no store request, and its single emission
reaches exactly the current members of meeting `mid`'s broadcast group other
than the sender — hence no connection outside that group, whatever other
meetings it belongs to. -/
theorem sendMessage_isolation (s : ChatState) (sid mid body author : String) (now : Nat) :
    (sendMessage s sid mid body author now).state = s ∧
    (sendMessage s sid mid body author now).requests = [] ∧
    (sendMessage s sid mid body author now).emissions =
      [.toRoomExcept mid sid "receive-message" (.message author body now)] ∧
    ∀ c, deliveredTo s.rooms
        (.toRoomExcept mid sid "receive-message" (.message author body now)) c = true ↔
        (c ∈ roomMembers s.rooms mid ∧ c ≠ sid) := by
  refine ⟨rfl, rfl, rfl, fun c => ?_⟩
  simp [deliveredTo, List.contains]
  tauto

/-- C7: failure of the lifecycle trigger's asynchronous status update is
swallowed: the final state, the client emissions and the issued requests are
the same whether the update succeeds or fails (nothing is surfaced, the
already-performed removal and `user-left` broadcast stand), at most one
request is ever issued (no retry), and a failure only adds a log line. -/
theorem lifecycle_failure_swallowed (s : ChatState) (sid : String) (fails : Bool) :
    (disconnectWithOutcome s sid fails).1 = (onDisconnect s sid).state ∧
    (disconnectWithOutcome s sid fails).2.1 = (onDisconnect s sid).emissions ∧
    (disconnectWithOutcome s sid fails).2.2.1 = (onDisconnect s sid).requests ∧
    (onDisconnect s sid).requests.length ≤ 1 ∧
    (disconnectWithOutcome s sid true).2.2.2 =
      (onDisconnect s sid).requests.map (fun _ => "Error terminando reunion") ∧
    (disconnectWithOutcome s sid false).2.2.2 = [] := by
  unfold disconnectWithOutcome resolveUpdate onDisconnect
  cases mapGet s.connectedUsers sid with
  | none => cases fails <;> simp
  | some p =>
      dsimp only
      cases h : (roomMembers (roomsDropSocket s.rooms sid) p.meetingId).isEmpty <;>
        cases fails <;> simp [h]

/-- C8 counterexample: an invalid (as opposed to missing) token makes all
three meeting endpoints answer 403, not the claimed 401. -/
theorem invalid_token_status_403 :
    createMeetingStatus .invalid false = 403 ∧
    getMeetingStatus .invalid false true = 403 ∧
    endMeetingStatus .invalid false = 403 ∧ (403 : Nat) ≠ 401 := by decide

/-- C8 amended: a missing token yields 401 and an invalid token yields 403 on
all three meeting endpoints; an unexpected store failure yields 500; and the
create endpoint also answers 401 when the verified payload carries no
`userId`. -/
theorem http_meeting_statuses :
    (∀ sf f : Bool,
       createMeetingStatus .missing sf = 401 ∧
       getMeetingStatus .missing sf f = 401 ∧
       endMeetingStatus .missing sf = 401 ∧
       createMeetingStatus .invalid sf = 403 ∧
       getMeetingStatus .invalid sf f = 403 ∧
       endMeetingStatus .invalid sf = 403) ∧
    (∀ (uid : String) (f : Bool),
       createMeetingStatus (.valid (some uid)) true = 500 ∧
       getMeetingStatus (.valid (some uid)) true f = 500 ∧
       endMeetingStatus (.valid (some uid)) true = 500) ∧
    createMeetingStatus (.valid none) false = 401 :=
  ⟨fun _ _ => ⟨rfl, rfl, rfl, rfl, rfl, rfl⟩, fun _ _ => ⟨rfl, rfl, rfl⟩, rfl⟩

/-- C10: the `end-meeting` handler broadcasts `meeting-ended` to every member
of room `mid`, is independent of which connection invoked it (no creator or
membership check), never issues a Meeting Store request, and leaves the whole
state — the stored meeting status included — unchanged. -/
theorem endMeeting_broadcast_only (s : ChatState) (sid sid2 mid : String) :
    endMeeting s sid mid = endMeeting s sid2 mid ∧
    (endMeeting s sid mid).state = s ∧
    (endMeeting s sid mid).requests = [] ∧
    (endMeeting s sid mid).emissions =
      [.toRoom mid "meeting-ended" (.text "La reunion ha terminado.")] ∧
    ∀ c, deliveredTo s.rooms
        (.toRoom mid "meeting-ended" (.text "La reunion ha terminado.")) c = true ↔
        c ∈ roomMembers s.rooms mid := by
  refine ⟨rfl, rfl, rfl, rfl, fun c => ?_⟩
  simp [deliveredTo]

/-- Both joins of the same user, one order: exactly one `user-joined`
broadcast and at most one registry entry for the pair. -/
lemma two_joins_same_user (s : ChatState) (sidA sidB uid nA nB mid : String)
    (hact : meetingActiveB s.store mid = true)
    (hnew : alreadyJoined s.connectedUsers uid mid = false) :
    countUserJoined
        (runTrace s [.join sidA mid uid nA, .join sidB mid uid nB]).2.1 mid uid = 1 ∧
    countEntries
        (runTrace s [.join sidA mid uid nA, .join sidB mid uid nB]).1.connectedUsers
        uid mid ≤ 1 := by
  obtain ⟨mt, hmt, hst⟩ := (meetingActiveB_iff s.store mid).mp hact
  have e1 := joinMeeting_active_new s sidA mid uid nA mt hmt hst hnew
  have haj2 : alreadyJoined (mapSet s.connectedUsers sidA ⟨uid, nA, mid⟩) uid mid = true :=
    alreadyJoined_mapSet_self s.connectedUsers sidA uid nA mid
  have e2 := joinMeeting_active_dup
    ⟨mapSet s.connectedUsers sidA ⟨uid, nA, mid⟩, roomJoin s.rooms mid sidA, s.store⟩
    sidB mid uid nB mt hmt hst haj2
  simp only [runTrace, stepEvent]
  rw [e1]
  dsimp only
  rw [e2]
  dsimp only
  constructor
  · simp [countUserJoined, List.filter]
  · have hle := countEntries_mapSet_le s.connectedUsers sidA ⟨uid, nA, mid⟩ uid mid
    rw [countEntries_eq_zero s.connectedUsers uid mid hnew] at hle
    exact hle

/-- C2: from any state where meeting `mid` is active and user `uid` is not
yet in its registry, two join requests from two connections carrying the
same `uid` produce, in either arrival order, at most one `user-joined`
broadcast for that user and room (so at most one can reach the prior
members) and leave at most one registry entry for `(uid, mid)` — the user is
not registered twice. -/
theorem duplicate_join_idempotent (s : ChatState) (sid1 sid2 uid n1 n2 mid : String)
    (hact : meetingActiveB s.store mid = true)
    (hnew : alreadyJoined s.connectedUsers uid mid = false) :
    (countUserJoined
        (runTrace s [.join sid1 mid uid n1, .join sid2 mid uid n2]).2.1 mid uid ≤ 1 ∧
     countEntries
        (runTrace s [.join sid1 mid uid n1, .join sid2 mid uid n2]).1.connectedUsers
        uid mid ≤ 1) ∧
    (countUserJoined
        (runTrace s [.join sid2 mid uid n2, .join sid1 mid uid n1]).2.1 mid uid ≤ 1 ∧
     countEntries
        (runTrace s [.join sid2 mid uid n2, .join sid1 mid uid n1]).1.connectedUsers
        uid mid ≤ 1) := by
  have h1 := two_joins_same_user s sid1 sid2 uid n1 n2 mid hact hnew
  have h2 := two_joins_same_user s sid2 sid1 uid n2 n1 mid hact hnew
  exact ⟨⟨le_of_eq h1.1, h1.2⟩, ⟨le_of_eq h2.1, h2.2⟩⟩

/-- Witness for `duplicate_join_idempotent`: two fresh sockets join `m1` as
`u1` from the empty start state. -/
theorem duplicate_join_idempotent_witness :
    meetingActiveB s0.store "m1" = true ∧
    alreadyJoined s0.connectedUsers "u1" "m1" = false ∧
    countUserJoined
      (runTrace s0 [.join "sockA" "m1" "u1" "A", .join "sockB" "m1" "u1" "B"]).2.1
      "m1" "u1" ≤ 1 ∧
    countEntries
      (runTrace s0 [.join "sockA" "m1" "u1" "A", .join "sockB" "m1" "u1" "B"]).1.connectedUsers
      "u1" "m1" ≤ 1 :=
  ⟨by decide, by decide,
   (duplicate_join_idempotent s0 "sockA" "sockB" "u1" "A" "B" "m1"
      (by decide) (by decide)).1.1,
   (duplicate_join_idempotent s0 "sockA" "sockB" "u1" "A" "B" "m1"
      (by decide) (by decide)).1.2⟩

/-- C4: every successful join sends the caller a `participants-list` equal to
the registry's participant projection for that meeting computed on the state
the join produced, and the caller's userId is in that list. -/
theorem join_sends_current_participants (s : ChatState) (sid mid uid name : String)
    (h : meetingActiveB s.store mid = true) :
    Emission.toSocket sid "participants-list"
        (.plist (participantsOf (joinMeeting s sid mid uid name).state.connectedUsers mid))
      ∈ (joinMeeting s sid mid uid name).emissions ∧
    uid ∈ (participantsOf
        (joinMeeting s sid mid uid name).state.connectedUsers mid).map Prod.fst := by
  obtain ⟨mt, hmt, hst⟩ := (meetingActiveB_iff s.store mid).mp h
  cases haj : alreadyJoined s.connectedUsers uid mid with
  | false =>
      rw [joinMeeting_active_new s sid mid uid name mt hmt hst haj]
      refine ⟨by simp, ?_⟩
      have hv : (⟨uid, name, mid⟩ : Participant) ∈
          mapValues (mapSet s.connectedUsers sid ⟨uid, name, mid⟩) :=
        mem_mapValues_of_mapGet _ sid _ (mapGet_mapSet_self s.connectedUsers sid _)
      exact userId_mem_participantsOf _ mid ⟨uid, name, mid⟩ hv rfl
  | true =>
      rw [joinMeeting_active_dup s sid mid uid name mt hmt hst haj]
      refine ⟨by simp, ?_⟩
      obtain ⟨u, hu, h1, h2⟩ := (alreadyJoined_iff s.connectedUsers uid mid).mp haj
      have hm := userId_mem_participantsOf s.connectedUsers mid u hu h2
      rwa [h1] at hm

/-- Witness for `join_sends_current_participants`: `u1` joins the active
meeting `m1` from the empty start state. -/
theorem join_sends_current_participants_witness :
    meetingActiveB s0.store "m1" = true ∧
    Emission.toSocket "sock1" "participants-list"
        (.plist (participantsOf
          (joinMeeting s0 "sock1" "m1" "u1" "Alice").state.connectedUsers "m1"))
      ∈ (joinMeeting s0 "sock1" "m1" "u1" "Alice").emissions ∧
    "u1" ∈ (participantsOf
        (joinMeeting s0 "sock1" "m1" "u1" "Alice").state.connectedUsers "m1").map Prod.fst :=
  ⟨by decide,
   (join_sends_current_participants s0 "sock1" "m1" "u1" "Alice" (by decide)).1,
   (join_sends_current_participants s0 "sock1" "m1" "u1" "Alice" (by decide)).2⟩

/-- C9: a join classified as a reconnection leaves the registry untouched
(the new socket id is not entered), a disconnect of an unregistered socket
emits no broadcast, issues no store request and changes no registry entry,
and concretely the reconnect trace closed by the disconnect of the
reconnection socket ends with an empty registry, an empty transport room and
zero status-update requests issued anywhere in the trace. -/
theorem reconnection_unregistered :
    (∀ (s : ChatState) (sid mid uid name : String),
       meetingActiveB s.store mid = true →
       alreadyJoined s.connectedUsers uid mid = true →
       (joinMeeting s sid mid uid name).state.connectedUsers = s.connectedUsers) ∧
    (∀ (s : ChatState) (sid : String),
       mapGet s.connectedUsers sid = none →
       (onDisconnect s sid).emissions = [] ∧
       (onDisconnect s sid).requests = [] ∧
       (onDisconnect s sid).state.connectedUsers = s.connectedUsers) ∧
    (participantsOf
        (runTrace s0 (reconnectTrace ++ [.disconnect "sock2"])).1.connectedUsers "m1" = [] ∧
     roomMembers
        (runTrace s0 (reconnectTrace ++ [.disconnect "sock2"])).1.rooms "m1" = [] ∧
     (runTrace s0 (reconnectTrace ++ [.disconnect "sock2"])).2.2 = []) := by
  refine ⟨?_, ?_, by decide⟩
  · intro s sid mid uid name hact haj
    obtain ⟨mt, hmt, hst⟩ := (meetingActiveB_iff s.store mid).mp hact
    rw [joinMeeting_active_dup s sid mid uid name mt hmt hst haj]
  · intro s sid hg
    unfold onDisconnect
    rw [hg]
    exact ⟨rfl, rfl, rfl⟩

/-- Witness for `reconnection_unregistered` on the one-member state `sOne`. -/
theorem reconnection_unregistered_witness :
    meetingActiveB sOne.store "m1" = true ∧
    alreadyJoined sOne.connectedUsers "u1" "m1" = true ∧
    (joinMeeting sOne "sock2" "m1" "u1" "Alice").state.connectedUsers =
      sOne.connectedUsers ∧
    mapGet sOne.connectedUsers "sock2" = none ∧
    (onDisconnect sOne "sock2").requests = [] :=
  ⟨by decide, by decide,
   reconnection_unregistered.1 sOne "sock2" "m1" "u1" "Alice" (by decide) (by decide),
   by decide,
   (reconnection_unregistered.2.1 sOne "sock2" (by decide)).2.1⟩

end RTChat
